import Mathlib

/-!
Verification of the ZManager file-manager core against its specification.

Each Rust module relevant to the claims is shallowly embedded below:
pure functions become Lean functions, stateful methods become functions
from the state to the new state, filesystem-dependent code takes the
filesystem as an explicit argument (a predicate on paths), and clock
reads (`Instant::now`, `SystemTime::now`) take the current time as an
explicit argument.  Machine integers (`u64`, `usize`, `u128`) are
modelled as `Nat` (no arithmetic here ever overflows except where an
explicit truncation is written in the code, which is modelled by `% 2 ^ 64`).
Paths are modelled as `String` (or `List String` of components where the
code manipulates parents), with `Ord::cmp` on paths modelled as the
canonical comparison of the linear order.
-/

/-! ## Job system (crates/zmanager-core/src/job.rs) -/

/-- The kind of operation a job performs (`JobKind`). -/
inductive JobKind where
  | Copy (sources : List String) (destination : String)
  | Move (sources : List String) (destination : String)
  | Delete (paths : List String)
  | DeletePermanent (paths : List String)
  | CalculateSize (path : String)
deriving DecidableEq

/-- The current state of a job in its lifecycle (`JobState`). -/
inductive JobState where
  | Pending
  | Running
  | Paused
  | Completed
  | Failed
  | Cancelled
deriving DecidableEq

/-- `JobState::is_terminal`. -/
def JobState.is_terminal : JobState → Bool
  | .Completed => true
  | .Failed => true
  | .Cancelled => true
  | _ => false

/-- `JobState::is_active`. -/
def JobState.is_active : JobState → Bool
  | .Running => true
  | .Paused => true
  | _ => false

/-- Progress information for a running job (`Progress`).  Durations are in
whole units (the claims never inspect them). -/
structure Progress where
  total_bytes : Option Nat
  bytes_done : Nat
  total_items : Nat
  items_done : Nat
  current_item : Option String
  eta : Option Nat
  speed_bytes_per_sec : Option Nat
deriving DecidableEq

/-- `Progress::new`. -/
def Progress.mkNew (total_items : Nat) (total_bytes : Option Nat) : Progress :=
  { total_bytes := total_bytes
    bytes_done := 0
    total_items := total_items
    items_done := 0
    current_item := none
    eta := none
    speed_bytes_per_sec := none }

/-- A complete job with all its metadata (`Job`).  `Instant` values are
modelled as `Nat` clock readings; the job's `CancellationToken` is modelled
by the boolean value of its shared flag. -/
structure Job where
  id : Nat
  kind : JobKind
  state : JobState
  progress : Progress
  created_at : Nat
  started_at : Option Nat
  finished_at : Option Nat
  error : Option String
  cancellation : Bool
deriving DecidableEq

/-- `Job::start` (`now` is the reading of `Instant::now()`). -/
def Job.start (j : Job) (now : Nat) : Job :=
  if j.state = JobState.Pending then
    { j with state := JobState.Running, started_at := some now }
  else j

/-- `Job::pause`. -/
def Job.pause (j : Job) : Job :=
  if j.state = JobState.Running then { j with state := JobState.Paused } else j

/-- `Job::resume`. -/
def Job.resume (j : Job) : Job :=
  if j.state = JobState.Paused then { j with state := JobState.Running } else j

/-- `Job::complete`. -/
def Job.complete (j : Job) (now : Nat) : Job :=
  if j.state.is_terminal then j
  else { j with state := JobState.Completed, finished_at := some now }

/-- `Job::fail`. -/
def Job.fail (j : Job) (error : String) (now : Nat) : Job :=
  if j.state.is_terminal then j
  else { j with state := JobState.Failed, error := some error, finished_at := some now }

/-- `Job::cancel` (also sets the cancellation token's flag). -/
def Job.cancel (j : Job) (now : Nat) : Job :=
  if j.state.is_terminal then j
  else { j with cancellation := true, state := JobState.Cancelled, finished_at := some now }

/-- A concrete job in the `Completed` terminal state, used to instantiate
the terminal-state theorem. -/
def completedJob : Job :=
  { id := 3
    kind := JobKind.Delete ["C:\\tmp\\a.txt"]
    state := JobState.Completed
    progress := Progress.mkNew 1 none
    created_at := 0
    started_at := some 1
    finished_at := some 2
    error := none
    cancellation := false }

/-! ## Cancellation token (crates/zmanager-core/src/job.rs)

`CancellationToken` holds an `Arc<AtomicBool>`; cloning copies the `Arc`,
so all clones address the same flag.  The heap of flags is modelled as an
explicit store mapping cell identifiers to boolean values, and a token is
the identifier of its cell. -/

/-- The store of `AtomicBool` cells shared between token clones. -/
structure TokenStore where
  cells : Nat → Bool

/-- `CancellationToken`: a handle to one shared boolean cell. -/
structure CancellationToken where
  cell : Nat

/-- `Clone::clone` for `CancellationToken`: the `Arc` is copied, so the
clone addresses the same cell. -/
def CancellationToken.clone (t : CancellationToken) : CancellationToken := t

/-- `CancellationToken::cancel`: store `true` in the shared cell. -/
def CancellationToken.cancel (t : CancellationToken) (s : TokenStore) : TokenStore :=
  ⟨fun i => if i = t.cell then true else s.cells i⟩

/-- `CancellationToken::reset`: store `false` in the shared cell. -/
def CancellationToken.reset (t : CancellationToken) (s : TokenStore) : TokenStore :=
  ⟨fun i => if i = t.cell then false else s.cells i⟩

/-- `CancellationToken::is_cancelled`: load the shared cell. -/
def CancellationToken.is_cancelled (t : CancellationToken) (s : TokenStore) : Bool :=
  s.cells t.cell

/-! ## Navigation state (crates/zmanager-core/src/navigation.rs)

Only the path and history components are modelled; the sort / filter /
cached-listing fields are untouched by every operation below except for
cache invalidation, which does not affect the claims. -/

/-- `MAX_HISTORY_SIZE`. -/
def maxHistorySize : Nat := 100

/-- Navigation state for a single pane (`NavigationState`): the current
path and the two history stacks, most recent at the end. -/
structure NavigationState where
  current_path : String
  back_stack : List String
  forward_stack : List String
deriving DecidableEq

/-- `NavigationState::new`. -/
def NavigationState.mkNew (start_path : String) : NavigationState :=
  { current_path := start_path, back_stack := [], forward_stack := [] }

/-- `NavigationState::navigate_to`: no-op on the current path, otherwise
push the current path on the back stack, trim it with `remove(0)` when it
exceeds `MAX_HISTORY_SIZE`, and clear the forward stack. -/
def NavigationState.navigate_to (s : NavigationState) (path : String) : NavigationState :=
  if path = s.current_path then s
  else
    let bs := s.back_stack ++ [s.current_path]
    let bs := if maxHistorySize < bs.length then bs.tail else bs
    { current_path := path, back_stack := bs, forward_stack := [] }

/-- `NavigationState::go_back`: pop the back stack; push the current path
on the forward stack (trimmed like the back stack). Returns the value
`go_back` returns together with the new state. -/
def NavigationState.go_back (s : NavigationState) : Option String × NavigationState :=
  match s.back_stack.getLast? with
  | some prev =>
      let fs := s.forward_stack ++ [s.current_path]
      let fs := if maxHistorySize < fs.length then fs.tail else fs
      (some prev,
        { current_path := prev, back_stack := s.back_stack.dropLast, forward_stack := fs })
  | none => (none, s)

/-- `NavigationState::go_forward`, symmetric to `go_back`. -/
def NavigationState.go_forward (s : NavigationState) : Option String × NavigationState :=
  match s.forward_stack.getLast? with
  | some next =>
      let bs := s.back_stack ++ [s.current_path]
      let bs := if maxHistorySize < bs.length then bs.tail else bs
      (some next,
        { current_path := next, back_stack := bs, forward_stack := s.forward_stack.dropLast })
  | none => (none, s)

/-- `NavigationState::clear_history`. -/
def NavigationState.clear_history (s : NavigationState) : NavigationState :=
  { s with back_stack := [], forward_stack := [] }

/-- One navigation operation.  `go_up` is `navigate_to(parent)` in the
source and is therefore covered by `navigate` with an arbitrary path. -/
inductive NavOp where
  | navigate (path : String)
  | back
  | forward
  | clearHistory

/-- Apply one navigation operation to the state. -/
def NavigationState.applyOp (s : NavigationState) : NavOp → NavigationState
  | .navigate p => s.navigate_to p
  | .back => (s.go_back).2
  | .forward => (s.go_forward).2
  | .clearHistory => s.clear_history

/-- Apply a sequence of navigation operations. -/
def applyNavOps (ops : List NavOp) (s : NavigationState) : NavigationState :=
  ops.foldl NavigationState.applyOp s

/-- Both history stacks hold at most `MAX_HISTORY_SIZE` entries. -/
def NavigationState.historyBounded (s : NavigationState) : Prop :=
  s.back_stack.length ≤ maxHistorySize ∧ s.forward_stack.length ≤ maxHistorySize

/-! ## Selection model (crates/zmanager-core/src/selection.rs)

Entries are represented by their paths (`EntryMeta.path`), the only field
the selection operations read.  The `HashSet<PathBuf>` of selected paths
is modelled as the list of inserted paths; no claim inspects it. -/

/-- Selection state for a directory listing (`Selection`). -/
structure Selection where
  selected : List String
  cursor : Nat
  anchor : Option Nat
  entry_count : Nat
deriving DecidableEq

/-- `Selection::with_count`. -/
def Selection.with_count (entry_count : Nat) : Selection :=
  { selected := [], cursor := 0, anchor := none, entry_count := entry_count }

/-- `Selection::set_entry_count`: clamp the cursor to `count - 1` when it
is out of range and `count > 0`; drop the anchor when out of range. -/
def Selection.set_entry_count (s : Selection) (count : Nat) : Selection :=
  { s with
    entry_count := count
    cursor := if count ≤ s.cursor ∧ 0 < count then count - 1 else s.cursor
    anchor := match s.anchor with
      | some a => if count ≤ a then none else some a
      | none => none }

/-- `Selection::select_range` restricted to the paths it inserts:
`entries.iter().skip(start).take(end - start + 1)`. -/
def selectRangePaths (entries : List String) (a b : Nat) : List String :=
  let lo := if a ≤ b then a else b
  let hi := if a ≤ b then b else a
  (entries.drop lo).take (hi - lo + 1)

/-- `Selection::move_up`. -/
def Selection.move_up (s : Selection) : Selection :=
  { s with cursor := if 0 < s.cursor then s.cursor - 1 else s.cursor, anchor := none }

/-- `Selection::move_down`. -/
def Selection.move_down (s : Selection) : Selection :=
  { s with
    cursor := if s.cursor + 1 < s.entry_count then s.cursor + 1 else s.cursor
    anchor := none }

/-- `Selection::move_up_extend`: set the anchor if absent; when the cursor
can move, decrement it and rebuild the selection from the range
anchor..cursor (`update_range_selection`). -/
def Selection.move_up_extend (s : Selection) (entries : List String) : Selection :=
  let anch := match s.anchor with
    | none => s.cursor
    | some a => a
  if 0 < s.cursor then
    { s with
      anchor := some anch
      cursor := s.cursor - 1
      selected := selectRangePaths entries anch (s.cursor - 1) }
  else { s with anchor := some anch }

/-- `Selection::move_down_extend`, symmetric to `move_up_extend`. -/
def Selection.move_down_extend (s : Selection) (entries : List String) : Selection :=
  let anch := match s.anchor with
    | none => s.cursor
    | some a => a
  if s.cursor + 1 < s.entry_count then
    { s with
      anchor := some anch
      cursor := s.cursor + 1
      selected := selectRangePaths entries anch (s.cursor + 1) }
  else { s with anchor := some anch }

/-- `Selection::move_to_first`. -/
def Selection.move_to_first (s : Selection) : Selection :=
  { s with cursor := 0, anchor := none }

/-- `Selection::move_to_last`. -/
def Selection.move_to_last (s : Selection) : Selection :=
  { s with
    cursor := if 0 < s.entry_count then s.entry_count - 1 else s.cursor
    anchor := none }

/-- `Selection::page_up` (`saturating_sub`). -/
def Selection.page_up (s : Selection) (page_size : Nat) : Selection :=
  { s with cursor := s.cursor - page_size, anchor := none }

/-- `Selection::page_down` (`min(entry_count.saturating_sub(1))`). -/
def Selection.page_down (s : Selection) (page_size : Nat) : Selection :=
  { s with cursor := min (s.cursor + page_size) (s.entry_count - 1), anchor := none }

/-- `Selection::set_cursor`. -/
def Selection.set_cursor (s : Selection) (index : Nat) : Selection :=
  if index < s.entry_count then { s with cursor := index, anchor := none } else s

/-- One cursor-affecting selection operation. -/
inductive SelOp where
  | setCount (count : Nat)
  | up
  | down
  | upExtend (entries : List String)
  | downExtend (entries : List String)
  | first
  | last
  | pageUp (page_size : Nat)
  | pageDown (page_size : Nat)
  | setCursor (index : Nat)

/-- Apply one selection operation. -/
def Selection.applyOp (s : Selection) : SelOp → Selection
  | .setCount n => s.set_entry_count n
  | .up => s.move_up
  | .down => s.move_down
  | .upExtend entries => s.move_up_extend entries
  | .downExtend entries => s.move_down_extend entries
  | .first => s.move_to_first
  | .last => s.move_to_last
  | .pageUp n => s.page_up n
  | .pageDown n => s.page_down n
  | .setCursor i => s.set_cursor i

/-- Apply a sequence of selection operations. -/
def applySelOps (ops : List SelOp) (s : Selection) : Selection :=
  ops.foldl Selection.applyOp s

/-- The cursor is in range whenever there are entries. -/
def Selection.cursorInRange (s : Selection) : Prop :=
  0 < s.entry_count → s.cursor < s.entry_count

/-! ## Directory entries and filtering (crates/zmanager-core/src/entry.rs,
crates/zmanager-core/src/filter.rs) -/

/-- The kind of a file system entry (`EntryKind`). -/
inductive EntryKind where
  | File
  | Directory
  | Symlink
  | Junction
deriving DecidableEq

/-- `EntryKind::is_file`. -/
def EntryKind.is_file : EntryKind → Bool
  | .File => true
  | _ => false

/-- File attributes (`EntryAttributes`). -/
structure EntryAttributes where
  hidden : Bool
  system : Bool
  readonly : Bool
  archive : Bool
deriving DecidableEq

/-- Metadata for a single file system entry (`EntryMeta`).  Timestamps are
`Option Int` clock values; the claims never read them. -/
structure EntryMeta where
  name : String
  path : String
  kind : EntryKind
  size : Nat
  created : Option Int
  modified : Option Int
  accessed : Option Int
  attributes : EntryAttributes
  link_target : Option String
  is_broken_link : Bool
  extension : Option String
deriving DecidableEq

/-- `str::starts_with('.')`: the first character is a dot. -/
def startsWithDot (s : String) : Bool :=
  match s.data with
  | [] => false
  | c :: _ => c = '.'

/-- `EntryMeta::is_hidden`. -/
def EntryMeta.is_hidden (e : EntryMeta) : Bool :=
  e.attributes.hidden || startsWithDot e.name

/-- `EntryMeta::is_file`. -/
def EntryMeta.is_file (e : EntryMeta) : Bool :=
  e.kind.is_file

/-- `str::to_lowercase`, modelled characterwise. -/
def strToLower (s : String) : String :=
  ⟨s.data.map Char.toLower⟩

/-- `needle.is_prefix_of` one of the suffixes of `hay`: the substring test
performed by Rust's `str::contains`. -/
def charsHaveSub (needle : List Char) : List Char → Bool
  | [] => needle.isEmpty
  | c :: rest => needle.isPrefixOf (c :: rest) || charsHaveSub needle rest

/-- `str::contains` on substrings. -/
def strHasSub (hay needle : String) : Bool :=
  charsHaveSub needle.data hay.data

/-- A specification for filtering directory entries (`FilterSpec`). -/
structure FilterSpec where
  pattern : Option String
  show_hidden : Bool
  show_system : Bool
  extensions : List String
  min_size : Option Nat
  max_size : Option Nat
deriving DecidableEq

/-- The hidden-file check of `FilterSpec::matches` fails the entry. -/
def FilterSpec.hiddenRejects (f : FilterSpec) (e : EntryMeta) : Bool :=
  !f.show_hidden && e.is_hidden

/-- The system-file check of `FilterSpec::matches` fails the entry. -/
def FilterSpec.systemRejects (f : FilterSpec) (e : EntryMeta) : Bool :=
  !f.show_system && e.attributes.system

/-- The case-insensitive pattern check of `FilterSpec::matches` fails the
entry: a pattern is set and the lowercased name does not contain it. -/
def FilterSpec.patternRejects (f : FilterSpec) (e : EntryMeta) : Bool :=
  match f.pattern with
  | some pat => !(strHasSub (strToLower e.name) (strToLower pat))
  | none => false

/-- The extension check of `FilterSpec::matches` fails the entry (applies
only when the extension set is nonempty and the entry is a file). -/
def FilterSpec.extensionRejects (f : FilterSpec) (e : EntryMeta) : Bool :=
  !f.extensions.isEmpty && e.is_file &&
    !(match e.extension with
      | some ext => f.extensions.contains ext
      | none => false)

/-- The size-range check of `FilterSpec::matches` fails the entry (applies
only to files). -/
def FilterSpec.sizeRejects (f : FilterSpec) (e : EntryMeta) : Bool :=
  e.is_file &&
    ((match f.min_size with
      | some m => e.size < m
      | none => false) ||
     (match f.max_size with
      | some m => m < e.size
      | none => false))

/-- `FilterSpec::matches`: the sequence of early-return checks of the
source, in source order. -/
def FilterSpec.matches (f : FilterSpec) (e : EntryMeta) : Bool :=
  if f.hiddenRejects e then false
  else if f.systemRejects e then false
  else if f.patternRejects e then false
  else if f.extensionRejects e then false
  else if f.sizeRejects e then false
  else true

/-- A concrete directory entry that is neither hidden nor a system entry. -/
def plainFolderEntry : EntryMeta :=
  { name := "folder"
    path := "C:\\test\\folder"
    kind := EntryKind.Directory
    size := 0
    created := none
    modified := none
    accessed := none
    attributes := { hidden := false, system := false, readonly := false, archive := false }
    link_target := none
    is_broken_link := false
    extension := none }

/-- A default filter with a pattern that the folder's name does not contain. -/
def xyzPatternFilter : FilterSpec :=
  { pattern := some "xyz"
    show_hidden := false
    show_system := false
    extensions := []
    min_size := none
    max_size := none }

/-! ## Transfer plan (crates/zmanager-transfer-win/src/plan.rs) -/

/-- An individual item in a transfer plan (`TransferItem`). -/
structure TransferItem where
  source : String
  destination : String
  is_dir : Bool
  size : Nat
  depth : Nat
  has_conflict : Bool
deriving DecidableEq

/-- `Ord::cmp` for `PathBuf`, modelled as the canonical three-way
comparison of the linear order on paths. -/
def pathCmp (a b : String) : Ordering :=
  compareOfLessAndEq a b

/-- The comparator passed to `items.sort_by` in `TransferPlanBuilder::build`:
directories before files, directories by depth, files by source path. -/
def cmpTransferItems (a b : TransferItem) : Ordering :=
  match a.is_dir, b.is_dir with
  | true, false => Ordering.lt
  | false, true => Ordering.gt
  | true, true => compare a.depth b.depth
  | false, false => pathCmp a.source b.source

/-- The "less or equal" relation induced by the comparator, as used by the
ascending stable sort. -/
def transferItemLe (a b : TransferItem) : Bool :=
  (cmpTransferItems a b).isLE

/-- The sorting step at the end of `TransferPlanBuilder::build`: the
enumerated items are sorted with `cmpTransferItems`.  Every plan the
builder returns carries `sortPlanItems items` for some enumerated list
`items`. -/
def TransferPlanBuilder.sortPlanItems (items : List TransferItem) : List TransferItem :=
  items.mergeSort transferItemLe

/-! ## Conflict resolution (crates/zmanager-transfer-win/src/conflict.rs) -/

/-- A conflict detected during transfer (`Conflict`).  `SystemTime`
modification times are modelled as `Option Nat` clock values. -/
structure Conflict where
  source : String
  destination : String
  source_size : Nat
  dest_size : Nat
  source_modified : Option Nat
  dest_modified : Option Nat
  is_dir : Bool
deriving DecidableEq

/-- `Conflict::source_is_newer`: `Some(src > dst)` when both times are
known. -/
def Conflict.source_is_newer (c : Conflict) : Option Bool :=
  match c.source_modified, c.dest_modified with
  | some src, some dst => some (decide (dst < src))
  | _, _ => none

/-- Policy for resolving file conflicts (`ConflictPolicy`). -/
inductive ConflictPolicy where
  | Overwrite
  | Skip
  | Rename
  | KeepNewer
  | KeepLarger
  | Ask
deriving DecidableEq

/-- Result of conflict resolution (`ConflictResolution`). -/
inductive ConflictResolution where
  | Overwrite
  | Skip
  | Rename
  | Cancel
deriving DecidableEq

/-- Settings for conflict handling (`ConflictSettings`). -/
structure ConflictSettings where
  file_policy : ConflictPolicy
  dir_policy : ConflictPolicy
  apply_to_all : Bool
deriving DecidableEq

/-- Resolver for handling conflicts (`ConflictResolver`). -/
structure ConflictResolver where
  settings : ConflictSettings
  cached_resolution : Option ConflictResolution
deriving DecidableEq

/-- `ConflictResolver::resolve`: use the cached resolution when
`apply_to_all` is set and a resolution is cached, otherwise apply the
file or directory policy. -/
def ConflictResolver.resolve (r : ConflictResolver) (c : Conflict) :
    Option ConflictResolution :=
  match (if r.settings.apply_to_all then r.cached_resolution else none) with
  | some cached => some cached
  | none =>
    let policy := if c.is_dir then r.settings.dir_policy else r.settings.file_policy
    match policy with
    | .Overwrite => some ConflictResolution.Overwrite
    | .Skip => some ConflictResolution.Skip
    | .Rename => some ConflictResolution.Rename
    | .KeepNewer =>
        match c.source_is_newer with
        | some true => some ConflictResolution.Overwrite
        | some false => some ConflictResolution.Skip
        | none => none
    | .KeepLarger =>
        if c.dest_size < c.source_size then some ConflictResolution.Overwrite
        else some ConflictResolution.Skip
    | .Ask => none

/-- A resolver whose file policy is `KeepNewer`, with no cached
resolution. -/
def keepNewerResolver : ConflictResolver :=
  { settings :=
      { file_policy := ConflictPolicy.KeepNewer
        dir_policy := ConflictPolicy.KeepNewer
        apply_to_all := false }
    cached_resolution := none }

/-- A file conflict whose source and destination modification times are
known and equal. -/
def equalTimesConflict : Conflict :=
  { source := "C:\\src\\a.txt"
    destination := "C:\\dst\\a.txt"
    source_size := 10
    dest_size := 20
    source_modified := some 100
    dest_modified := some 100
    is_dir := false }

/-! ### Rename generation (`ConflictResolver::generate_rename_path`)

The function operates inside one parent directory: it decomposes the
input path into `stem[.ext]` and probes names against the filesystem.
The filesystem is modelled as the predicate `ex` telling whether a name
already exists in that directory, and `SystemTime::now` (unix seconds)
as the argument `ts`. -/

/-- The candidate name `stem (counter)[.ext]`. -/
def renameCandidate (stem : String) (ext : Option String) (counter : Nat) : String :=
  match ext with
  | some e => stem ++ " (" ++ toString counter ++ ")." ++ e
  | none => stem ++ " (" ++ toString counter ++ ")"

/-- The fallback name `stem_<unix_seconds>[.ext]` used after the safety
limit. -/
def renameFallback (stem : String) (ext : Option String) (ts : Nat) : String :=
  match ext with
  | some e => stem ++ "_" ++ toString ts ++ "." ++ e
  | none => stem ++ "_" ++ toString ts

/-- The `loop` of `generate_rename_path`, starting from a given counter:
return the first non-existing candidate; after the counter passes 10000,
return the fallback name (fuel makes the recursion structural; it never
runs out from the entry point). -/
def generateRenameFrom (ex : String → Bool) (stem : String) (ext : Option String)
    (ts : Nat) : Nat → Nat → String
  | _, 0 => renameFallback stem ext ts
  | counter, fuel + 1 =>
    let new_name := renameCandidate stem ext counter
    if ex new_name = false then new_name
    else if 10000 < counter + 1 then renameFallback stem ext ts
    else generateRenameFrom ex stem ext ts (counter + 1) fuel

/-- `ConflictResolver::generate_rename_path`: the counter starts at 1 and
candidates 1..10000 are probed before the fallback. -/
def ConflictResolver.generate_rename_path (ex : String → Bool) (stem : String)
    (ext : Option String) (ts : Nat) : String :=
  generateRenameFrom ex stem ext ts 1 10000

/-! ## File copy (crates/zmanager-transfer-win/src/copy.rs)

`copy_file_with_progress` validates its arguments against the filesystem
before invoking `CopyFileExW`.  Paths are component lists; the filesystem
is a record of file/directory predicates and file sizes, assumed static
for the duration of the call.  `CopyFileExW` itself is modelled by its
documented behaviour: with `COPY_FILE_FAIL_IF_EXISTS` it fails with
`ERROR_FILE_EXISTS` (mapped to `AlreadyExists`) when the destination
exists, and otherwise copies the source file to the destination. -/

/-- A static view of the filesystem for one copy call. -/
structure WinFS where
  isFile : List String → Bool
  isDir : List String → Bool
  fileSize : List String → Nat

/-- `Path::exists`. -/
def WinFS.pathExists (fs : WinFS) (p : List String) : Bool :=
  fs.isFile p || fs.isDir p

/-- `Path::parent`: drop the last component (none for an empty path). -/
def parentPath (p : List String) : Option (List String) :=
  if p = [] then none else some p.dropLast

/-- `std::fs::create_dir_all`: the path and all its ancestors become
directories. -/
def WinFS.createDirAll (fs : WinFS) (p : List String) : WinFS :=
  { fs with isDir := fun q => q.isPrefixOf p || fs.isDir q }

/-- The effect of a successful `CopyFileExW`: the destination becomes a
file of the source's size. -/
def WinFS.copyTo (fs : WinFS) (source destination : List String) : WinFS :=
  { fs with
    isFile := fun q => q == destination || fs.isFile q
    fileSize := fun q => if q == destination then fs.fileSize source else fs.fileSize q }

/-- The error cases of `copy_file_with_progress` (`ZError` variants it
produces). -/
inductive CopyError where
  | NotFound
  | NotAFile
  | AlreadyExists
  | Cancelled
  | PermissionDenied
  | Windows (code : Nat)
deriving DecidableEq

/-- `copy_file_with_progress`: validation, parent creation, then the
native copy; returns the result together with the filesystem after the
call. -/
def copy_file_with_progress (fs : WinFS) (source destination : List String)
    (overwrite : Bool) : Except CopyError Nat × WinFS :=
  if fs.pathExists source = false then (Except.error CopyError.NotFound, fs)
  else if fs.isFile source = false then (Except.error CopyError.NotAFile, fs)
  else if !overwrite && fs.pathExists destination then
    (Except.error CopyError.AlreadyExists, fs)
  else
    let fs1 := match parentPath destination with
      | some parent => if fs.pathExists parent = false then fs.createDirAll parent else fs
      | none => fs
    if !overwrite && fs1.pathExists destination then
      (Except.error CopyError.AlreadyExists, fs1)
    else (Except.ok (fs1.fileSize source), fs1.copyTo source destination)

/-- A filesystem holding the file `C:\src.txt` and the file `C:\dst.txt`. -/
def twoFileFS : WinFS :=
  { isFile := fun p => p == ["C:", "src.txt"] || p == ["C:", "dst.txt"]
    isDir := fun p => p == ["C:"]
    fileSize := fun p => if p == ["C:", "src.txt"] then 5 else 7 }

/-! ## Transfer reports (crates/zmanager-transfer-win/src/report.rs)

`ReportStorage::save` writes the report as JSON through the derived
serde instances and `ReportStorage::load` parses it back.  Every field
round-trips structurally through `serde_json` except the two `SystemTime`
fields, which go through the `system_time_serde` helper; the JSON content
is modelled by `StoredReport`.  `SystemTime` is modelled as a signed
number of nanoseconds since the Unix epoch. -/

/-- Status of an individual transfer item (`TransferStatus`). -/
inductive TransferStatus where
  | Success
  | Skipped
  | Failed
deriving DecidableEq

/-- Type of transfer operation (`TransferOperation`). -/
inductive TransferOperation where
  | Copy
  | Move
deriving DecidableEq

/-- Detailed result for a single transferred item (`TransferItemResult`). -/
structure TransferItemResult where
  source : String
  destination : String
  is_directory : Bool
  size_bytes : Nat
  status : TransferStatus
  reason : Option String
  duration_ms : Option Nat
deriving DecidableEq

/-- Summary statistics for a transfer operation (`TransferSummary`). -/
structure TransferSummary where
  total_items : Nat
  succeeded : Nat
  skipped : Nat
  failed : Nat
  bytes_transferred : Nat
  duration_ms : Nat
  directories_created : Nat
  files_copied : Nat
deriving DecidableEq

/-- Complete transfer report (`DetailedTransferReport`).  The two
timestamps are nanoseconds since the Unix epoch (negative = before it). -/
structure DetailedTransferReport where
  job_id : Nat
  operation : TransferOperation
  started_at : Int
  completed_at : Int
  summary : TransferSummary
  items : List TransferItemResult
  was_cancelled : Bool
deriving DecidableEq

/-- `system_time_serde::serialize`: `duration_since(UNIX_EPOCH)` (zero for
pre-epoch times, which is `Int.toNat`) followed by `as_millis`. -/
def systemTimeSerialize (t : Int) : Nat :=
  t.toNat / 1000000

/-- `system_time_serde::deserialize`: `UNIX_EPOCH + from_millis(millis as u64)`
(the `u128 → u64` cast truncates modulo `2 ^ 64`). -/
def systemTimeDeserialize (millis : Nat) : Int :=
  (((millis % 2 ^ 64) * 1000000 : Nat) : Int)

/-- The JSON content written by `ReportStorage::save`: all fields of the
report, with the timestamps as serialized milliseconds. -/
structure StoredReport where
  job_id : Nat
  operation : TransferOperation
  started_at_millis : Nat
  completed_at_millis : Nat
  summary : TransferSummary
  items : List TransferItemResult
  was_cancelled : Bool
deriving DecidableEq

/-- `ReportStorage::save` (through `save_json` and the serde instances). -/
def ReportStorage.save (r : DetailedTransferReport) : StoredReport :=
  { job_id := r.job_id
    operation := r.operation
    started_at_millis := systemTimeSerialize r.started_at
    completed_at_millis := systemTimeSerialize r.completed_at
    summary := r.summary
    items := r.items
    was_cancelled := r.was_cancelled }

/-- `ReportStorage::load` (through `serde_json::from_str`). -/
def ReportStorage.load (s : StoredReport) : DetailedTransferReport :=
  { job_id := s.job_id
    operation := s.operation
    started_at := systemTimeDeserialize s.started_at_millis
    completed_at := systemTimeDeserialize s.completed_at_millis
    summary := s.summary
    items := s.items
    was_cancelled := s.was_cancelled }

/-- A report whose start time has a fractional millisecond
(500000 nanoseconds = 0.5 ms). -/
def halfMillisReport : DetailedTransferReport :=
  { job_id := 1
    operation := TransferOperation.Copy
    started_at := 500000
    completed_at := 0
    summary :=
      { total_items := 0, succeeded := 0, skipped := 0, failed := 0
        bytes_transferred := 0, duration_ms := 0
        directories_created := 0, files_copied := 0 }
    items := []
    was_cancelled := false }

/-- A report whose timestamps are whole milliseconds. -/
def wholeMillisReport : DetailedTransferReport :=
  { halfMillisReport with started_at := 2000000, completed_at := 3000000 }

/-! ## Theorems -/

/-- Claim C4: for every job whose state is terminal (Completed, Failed, or
Cancelled), none of the operations start, pause, resume, complete, fail,
or cancel changes its state or any other field. -/
theorem C4_terminal_states_reject_transitions (j : Job) (now : Nat) (err : String)
    (h : j.state.is_terminal = true) :
    j.start now = j ∧ j.pause = j ∧ j.resume = j ∧ j.complete now = j ∧
      j.fail err now = j ∧ j.cancel now = j := by
  cases hs : j.state <;>
    simp_all [JobState.is_terminal, Job.start, Job.pause, Job.resume, Job.complete,
      Job.fail, Job.cancel]

/-- Witness for C4 at a concrete completed job. -/
theorem C4_terminal_states_reject_transitions_witness :
    completedJob.state.is_terminal = true ∧
      (completedJob.start 7 = completedJob ∧ completedJob.pause = completedJob ∧
        completedJob.resume = completedJob ∧ completedJob.complete 7 = completedJob ∧
        completedJob.fail "boom" 7 = completedJob ∧ completedJob.cancel 7 = completedJob) :=
  ⟨rfl, C4_terminal_states_reject_transitions completedJob 7 "boom" rfl⟩

/-- Claim C10: for every cancellation token and every clone of it, reset on
either one makes is_cancelled return false on both; in particular a clone
can un-cancel a token that was cancelled through the original handle. -/
theorem C10_reset_shared_across_clones (s : TokenStore) (t : CancellationToken) :
    t.is_cancelled (t.clone.reset s) = false ∧
      t.clone.is_cancelled (t.reset s) = false ∧
      t.is_cancelled (t.clone.reset (t.cancel s)) = false := by
  simp [CancellationToken.is_cancelled, CancellationToken.reset,
    CancellationToken.clone, CancellationToken.cancel]

/-- Claim C2 counterexample: a file conflict whose source and destination
modification times are known and equal resolves, under the KeepNewer
policy, to Skip rather than to the needs-ask outcome the claim predicts. -/
theorem C2_keep_newer_counterexample :
    equalTimesConflict.source_modified = some 100 ∧
      equalTimesConflict.dest_modified = some 100 ∧
      keepNewerResolver.resolve equalTimesConflict = some ConflictResolution.Skip := by
  decide

/-- Claim C2 (amended): under the KeepNewer policy (with no cached
apply-to-all resolution), a strictly newer source resolves to Overwrite, a
source strictly older or exactly as old resolves to Skip, and the resolver
returns the needs-ask outcome exactly when a timestamp is unknown. -/
theorem C2_keep_newer_amended (r : ConflictResolver) (c : Conflict)
    (hcache : r.settings.apply_to_all = true → r.cached_resolution = none)
    (hpol : (if c.is_dir then r.settings.dir_policy else r.settings.file_policy) =
      ConflictPolicy.KeepNewer) :
    r.resolve c =
      match c.source_modified, c.dest_modified with
      | some src, some dst =>
          if dst < src then some ConflictResolution.Overwrite
          else some ConflictResolution.Skip
      | _, _ => none := by
  unfold ConflictResolver.resolve
  have hnone : (if r.settings.apply_to_all then r.cached_resolution else none) = none := by
    by_cases h : r.settings.apply_to_all
    · simp [h, hcache h]
    · simp [h]
  rw [hnone, hpol]
  unfold Conflict.source_is_newer
  cases c.source_modified <;> cases c.dest_modified <;> simp
  rename_i src dst
  by_cases h : dst < src <;> simp [h]

/-- Witness for C2 (amended) at a concrete conflict whose source is newer. -/
theorem C2_keep_newer_amended_witness :
    (keepNewerResolver.settings.apply_to_all = true →
        keepNewerResolver.cached_resolution = none) ∧
      keepNewerResolver.resolve { equalTimesConflict with source_modified := some 200 } =
        some ConflictResolution.Overwrite :=
  ⟨fun _ => rfl,
    (C2_keep_newer_amended keepNewerResolver
      { equalTimesConflict with source_modified := some 200 }
      (fun _ => rfl) (by decide)).trans (by decide)⟩

/-- Claim C9 counterexample: a report whose start time has a fractional
millisecond does not survive the save/load round trip, because
system_time_serde stores whole milliseconds. -/
theorem C9_report_roundtrip_counterexample :
    ReportStorage.load (ReportStorage.save halfMillisReport) ≠ halfMillisReport := by
  decide

/-- Round trip of one timestamp through system_time_serde: exact for
nonnegative whole-millisecond times below 2^64 milliseconds. -/
theorem systemTime_roundtrip (t : Int) (h0 : 0 ≤ t) (hm : t % 1000000 = 0)
    (hlt : t < 1000000 * 2 ^ 64) :
    systemTimeDeserialize (systemTimeSerialize t) = t := by
  have hpow : (2 : Nat) ^ 64 = 18446744073709551616 := by norm_num
  have hpow2 : (2 : Int) ^ 64 = 18446744073709551616 := by norm_num
  unfold systemTimeSerialize systemTimeDeserialize
  rw [hpow]
  rw [hpow2] at hlt
  have hmn : t.toNat % 1000000 = 0 := by omega
  have hln : t.toNat < 1000000 * 18446744073709551616 := by omega
  have hnat : t.toNat / 1000000 % 18446744073709551616 * 1000000 = t.toNat := by omega
  omega

/-- Claim C9 (amended): save followed by load is the identity on every
report whose timestamps are whole numbers of milliseconds at or after the
Unix epoch (and below 2^64 milliseconds); in general the two timestamps
are truncated to milliseconds while every other field round-trips
exactly. -/
theorem C9_report_roundtrip_amended (r : DetailedTransferReport)
    (hs0 : 0 ≤ r.started_at) (hsm : r.started_at % 1000000 = 0)
    (hsl : r.started_at < 1000000 * 2 ^ 64)
    (hc0 : 0 ≤ r.completed_at) (hcm : r.completed_at % 1000000 = 0)
    (hcl : r.completed_at < 1000000 * 2 ^ 64) :
    ReportStorage.load (ReportStorage.save r) = r := by
  unfold ReportStorage.load ReportStorage.save
  rw [systemTime_roundtrip r.started_at hs0 hsm hsl,
    systemTime_roundtrip r.completed_at hc0 hcm hcl]

/-- Witness for C9 (amended) at a concrete whole-millisecond report. -/
theorem C9_report_roundtrip_amended_witness :
    wholeMillisReport.started_at % 1000000 = 0 ∧
      ReportStorage.load (ReportStorage.save wholeMillisReport) = wholeMillisReport :=
  ⟨by decide,
    C9_report_roundtrip_amended wholeMillisReport (by decide) (by decide) (by decide)
      (by decide) (by decide) (by decide)⟩

/-- Claim C7 counterexample: a directory that is neither hidden nor a
system entry is rejected by FilterSpec::matches when a pattern is set that
its name does not contain — the pattern check applies to directories. -/
theorem C7_directory_filter_counterexample :
    plainFolderEntry.kind = EntryKind.Directory ∧
      xyzPatternFilter.hiddenRejects plainFolderEntry = false ∧
      xyzPatternFilter.systemRejects plainFolderEntry = false ∧
      xyzPatternFilter.matches plainFolderEntry = false := by
  decide

/-- Claim C7 (amended): for every entry of kind Directory,
FilterSpec::matches admits it unless the hidden, system, or pattern checks
exclude it; the extension-set and size-bound criteria apply only to files
and never cause a directory to be filtered out. -/
theorem C7_directory_filtering_amended (f : FilterSpec) (e : EntryMeta)
    (h : e.kind = EntryKind.Directory) :
    f.matches e = (!f.hiddenRejects e && !f.systemRejects e && !f.patternRejects e) := by
  have hf : e.is_file = false := by
    simp [EntryMeta.is_file, h, EntryKind.is_file]
  have hext : f.extensionRejects e = false := by
    simp [FilterSpec.extensionRejects, hf]
  have hsz : f.sizeRejects e = false := by
    simp [FilterSpec.sizeRejects, hf]
  unfold FilterSpec.matches
  rw [hext, hsz]
  cases h1 : f.hiddenRejects e <;> cases h2 : f.systemRejects e <;>
    cases h3 : f.patternRejects e <;> simp

/-- Witness for C7 (amended) at the concrete folder entry and filter. -/
theorem C7_directory_filtering_amended_witness :
    plainFolderEntry.kind = EntryKind.Directory ∧
      xyzPatternFilter.matches plainFolderEntry =
        (!xyzPatternFilter.hiddenRejects plainFolderEntry &&
          !xyzPatternFilter.systemRejects plainFolderEntry &&
          !xyzPatternFilter.patternRejects plainFolderEntry) :=
  ⟨rfl, C7_directory_filtering_amended xyzPatternFilter plainFolderEntry rfl⟩

/-- On a filesystem where every name exists, the rename loop exhausts its
10000 candidates and returns the fallback name. -/
theorem generateRenameFrom_allExists (stem : String) (ext : Option String) (ts : Nat) :
    ∀ (fuel counter : Nat),
      generateRenameFrom (fun _ => true) stem ext ts counter fuel =
        renameFallback stem ext ts := by
  intro fuel
  induction fuel with
  | zero => intro c; rfl
  | succ n ih =>
      intro c
      unfold generateRenameFrom
      rw [if_neg (by simp)]
      split
      · rfl
      · exact ih (c + 1)

/-- Claim C3 counterexample: on a filesystem where every name exists, the
generator takes the fallback branch and returns the timestamp-based name,
which does exist at generation time — the fallback is not checked. -/
theorem C3_rename_path_counterexample :
    ConflictResolver.generate_rename_path (fun _ => true) "file" (some "txt") 42 =
        renameFallback "file" (some "txt") 42 ∧
      (fun _ : String => true)
          (ConflictResolver.generate_rename_path (fun _ => true) "file" (some "txt") 42) =
        true :=
  ⟨generateRenameFrom_allExists "file" (some "txt") 42 10000 1, rfl⟩

/-- Every result of the rename loop is either a probed non-existing
candidate or the unchecked fallback name. -/
theorem generateRenameFrom_cases (ex : String → Bool) (stem : String)
    (ext : Option String) (ts : Nat) :
    ∀ (fuel counter : Nat),
      ex (generateRenameFrom ex stem ext ts counter fuel) = false ∨
        generateRenameFrom ex stem ext ts counter fuel = renameFallback stem ext ts := by
  intro fuel
  induction fuel with
  | zero => intro c; right; rfl
  | succ n ih =>
      intro c
      unfold generateRenameFrom
      by_cases h : ex (renameCandidate stem ext c) = false
      · rw [if_pos h]
        exact Or.inl h
      · rw [if_neg h]
        split
        · right; rfl
        · exact ih (c + 1)

/-- Claim C3 (amended): the path returned by generate_rename_path does not
exist at generation time whenever it is produced by the counter loop; the
fallback taken after 10000 attempts returns the timestamp-based name
without an existence check, so only that name may already exist. -/
theorem C3_rename_path_amended (ex : String → Bool) (stem : String)
    (ext : Option String) (ts : Nat) :
    ex (ConflictResolver.generate_rename_path ex stem ext ts) = false ∨
      ConflictResolver.generate_rename_path ex stem ext ts =
        renameFallback stem ext ts :=
  generateRenameFrom_cases ex stem ext ts 10000 1

/-- Every single selection operation preserves the cursor range
invariant. -/
theorem Selection.applyOp_cursorInRange (s : Selection) (op : SelOp)
    (h : s.cursorInRange) : (s.applyOp op).cursorInRange := by
  unfold Selection.cursorInRange at h ⊢
  cases op <;>
    simp only [Selection.applyOp, Selection.set_entry_count, Selection.move_up,
      Selection.move_down, Selection.move_up_extend, Selection.move_down_extend,
      Selection.move_to_first, Selection.move_to_last, Selection.page_up,
      Selection.page_down, Selection.set_cursor] <;>
    (try split) <;>
    (try dsimp only) <;>
    omega

/-- Every sequence of selection operations preserves the cursor range
invariant. -/
theorem applySelOps_cursorInRange (ops : List SelOp) (s : Selection)
    (h : s.cursorInRange) : (applySelOps ops s).cursorInRange := by
  induction ops generalizing s with
  | nil => exact h
  | cons op rest ih =>
      exact ih (s.applyOp op) (Selection.applyOp_cursorInRange s op h)

/-- Claim C6 counterexample: starting from two entries with the cursor on
index 1, set_entry_count(0) leaves the cursor at 1 even though the entry
count is 0 — the cursor is not reset to 0 when the listing becomes
empty. -/
theorem C6_cursor_counterexample :
    ((Selection.with_count 2).move_down.set_entry_count 0).entry_count = 0 ∧
      ((Selection.with_count 2).move_down.set_entry_count 0).cursor = 1 := by
  decide

/-- Claim C6 (amended): after any sequence of selection operations
(including set_entry_count) the cursor is in [0, entry_count) whenever
entry_count > 0, and set_entry_count(n) with n > 0 clamps an out-of-range
cursor to n - 1; when entry_count becomes 0 the cursor keeps its previous
value (it is not reset to 0). -/
theorem C6_cursor_invariant_amended :
    (∀ (n : Nat) (ops : List SelOp),
        (applySelOps ops (Selection.with_count n)).cursorInRange) ∧
      (∀ (s : Selection) (n : Nat), 0 < n → n ≤ s.cursor →
        (s.set_entry_count n).cursor = n - 1) := by
  constructor
  · intro n ops
    apply applySelOps_cursorInRange
    intro hpos
    simpa [Selection.with_count] using hpos
  · intro s n h1 h2
    unfold Selection.set_entry_count
    simp only
    rw [if_pos ⟨h2, h1⟩]

/-- Witness for C6 (amended): set_entry_count(3) on a selection whose
cursor sits at 8 clamps the cursor to 2. -/
theorem C6_cursor_invariant_amended_witness :
    0 < 3 ∧ 3 ≤ ((Selection.with_count 10).set_cursor 8).cursor ∧
      (((Selection.with_count 10).set_cursor 8).set_entry_count 3).cursor = 2 :=
  ⟨by decide, by decide,
    C6_cursor_invariant_amended.2 ((Selection.with_count 10).set_cursor 8) 3
      (by decide) (by decide)⟩

/-- Pushing onto a stack and trimming it keeps its last element: the most
recent entry survives the `remove(0)` trim. -/
theorem trimmed_push_getLast? (l : List String) (a : String)
    (h : maxHistorySize < (l ++ [a]).length) :
    ((l ++ [a]).tail).getLast? = some a := by
  cases l with
  | nil => simp [maxHistorySize] at h
  | cons x xs => simp

/-- Navigating to a genuinely new path and then going back restores and
returns the prior current path. -/
theorem navigate_then_go_back (s : NavigationState) (p : String)
    (hp : p ≠ s.current_path) :
    ((s.navigate_to p).go_back).1 = some s.current_path ∧
      ((s.navigate_to p).go_back).2.current_path = s.current_path := by
  unfold NavigationState.navigate_to
  rw [if_neg hp]
  unfold NavigationState.go_back
  dsimp only
  by_cases hlen : maxHistorySize < (s.back_stack ++ [s.current_path]).length
  · rw [if_pos hlen, trimmed_push_getLast? s.back_stack s.current_path hlen]
    exact ⟨rfl, rfl⟩
  · rw [if_neg hlen, List.getLast?_concat]
    exact ⟨rfl, rfl⟩

/-- A pushed-and-trimmed stack stays within the history bound when the
original stack satisfied it. -/
theorem trimmed_push_length (l : List String) (a : String)
    (h : l.length ≤ maxHistorySize) :
    (if maxHistorySize < (l ++ [a]).length then (l ++ [a]).tail
      else l ++ [a]).length ≤ maxHistorySize := by
  have hlen : (l ++ [a]).length = l.length + 1 := by simp
  split
  · rename_i hc
    rw [List.length_tail, hlen]
    rw [hlen] at hc
    omega
  · rename_i hc
    rw [hlen] at hc ⊢
    omega

/-- Every single navigation operation preserves the history bound. -/
theorem NavigationState.applyOp_bounded (s : NavigationState) (op : NavOp)
    (h : s.historyBounded) : (s.applyOp op).historyBounded := by
  obtain ⟨hb, hf⟩ := h
  unfold NavigationState.historyBounded
  cases op with
  | navigate p =>
      simp only [NavigationState.applyOp]
      unfold NavigationState.navigate_to
      by_cases hp : p = s.current_path
      · rw [if_pos hp]; exact ⟨hb, hf⟩
      · rw [if_neg hp]
        dsimp only
        exact ⟨trimmed_push_length s.back_stack s.current_path hb, by simp⟩
  | back =>
      simp only [NavigationState.applyOp]
      unfold NavigationState.go_back
      cases hgl : s.back_stack.getLast? with
      | none => exact ⟨hb, hf⟩
      | some prev =>
          dsimp only
          refine ⟨?_, trimmed_push_length s.forward_stack s.current_path hf⟩
          rw [List.length_dropLast]
          omega
  | forward =>
      simp only [NavigationState.applyOp]
      unfold NavigationState.go_forward
      cases hgl : s.forward_stack.getLast? with
      | none => exact ⟨hb, hf⟩
      | some next =>
          dsimp only
          refine ⟨trimmed_push_length s.back_stack s.current_path hb, ?_⟩
          rw [List.length_dropLast]
          omega
  | clearHistory =>
      simp only [NavigationState.applyOp]
      unfold NavigationState.clear_history
      exact ⟨by simp [maxHistorySize], by simp [maxHistorySize]⟩

/-- Every sequence of navigation operations preserves the history bound. -/
theorem applyNavOps_bounded (ops : List NavOp) (s : NavigationState)
    (h : s.historyBounded) : (applyNavOps ops s).historyBounded := by
  induction ops generalizing s with
  | nil => exact h
  | cons op rest ih =>
      exact ih (s.applyOp op) (NavigationState.applyOp_bounded s op h)

/-- Claim C5 counterexample: navigating to the current path is a no-op, so
navigate_to("B") followed by go_back() from a state already at "B" (with
"A" in the back history) lands on "A", not on the prior path "B". -/
theorem C5_navigation_counterexample :
    (((NavigationState.mkNew "A").navigate_to "B").navigate_to "B").current_path = "B" ∧
      (((((NavigationState.mkNew "A").navigate_to "B").navigate_to "B").go_back).2).current_path
        = "A" := by
  decide

/-- Claim C5 (amended): navigate_to(p) followed by go_back() returns and
restores the prior path whenever p differs from the current path (for
p equal to the current path, navigate_to is a no-op and go_back pops an
older entry instead); and after any sequence of operations starting from
a fresh state, both history stacks hold at most 100 entries. -/
theorem C5_navigation_amended :
    (∀ (s : NavigationState) (p : String), p ≠ s.current_path →
        ((s.navigate_to p).go_back).1 = some s.current_path ∧
          ((s.navigate_to p).go_back).2.current_path = s.current_path) ∧
      (∀ (p : String) (ops : List NavOp),
        (applyNavOps ops (NavigationState.mkNew p)).historyBounded) := by
  constructor
  · exact navigate_then_go_back
  · intro p ops
    apply applyNavOps_bounded
    exact ⟨by simp [NavigationState.mkNew, maxHistorySize], by simp [NavigationState.mkNew, maxHistorySize]⟩

/-- Witness for C5 (amended): navigating from "A" to "B" and going back
returns to "A". -/
theorem C5_navigation_amended_witness :
    ("B" ≠ (NavigationState.mkNew "A").current_path) ∧
      (((NavigationState.mkNew "A").navigate_to "B").go_back).2.current_path =
        (NavigationState.mkNew "A").current_path :=
  ⟨by decide, (C5_navigation_amended.1 (NavigationState.mkNew "A") "B" (by decide)).2⟩

/-- A nonempty component path is never a prefix of its own parent. -/
theorem not_isPrefixOf_dropLast (l : List String) (h : l ≠ []) :
    l.isPrefixOf l.dropLast = false := by
  by_contra hc
  have htrue : l.isPrefixOf l.dropLast = true := by
    revert hc
    cases l.isPrefixOf l.dropLast <;> simp
  rw [ List.isPrefixOf_iff_prefix] at htrue
  have hlen := htrue.length_le
  rw [List.length_dropLast] at hlen
  have hpos : 0 < l.length := List.length_pos.mpr h
  omega

/-- When the source is a file and the destination is absent, the copy
succeeds (parent creation never makes the destination itself exist). -/
theorem copy_result_dest_absent (fs : WinFS) (source destination : List String)
    (hs : fs.isFile source = true) (hd : fs.pathExists destination = false) :
    ∃ n, (copy_file_with_progress fs source destination false).1 = Except.ok n := by
  have hex : fs.pathExists source = true := by
    simp [WinFS.pathExists, hs]
  have hfile : fs.isFile destination = false := by
    revert hd
    unfold WinFS.pathExists
    cases fs.isFile destination <;> simp
  have hdir : fs.isDir destination = false := by
    revert hd
    unfold WinFS.pathExists
    cases fs.isFile destination <;> cases fs.isDir destination <;> simp
  unfold copy_file_with_progress
  simp only [hex, hs, hd, Bool.true_eq_false, if_false, Bool.not_false, Bool.true_and,
    Bool.false_eq_true, reduceIte]
  cases hpp : parentPath destination with
  | none =>
      dsimp only
      rw [if_neg (by simp [WinFS.pathExists, hfile, hdir])]
      exact ⟨_, rfl⟩
  | some parent =>
      dsimp only
      have hne : destination ≠ [] := by
        intro hnil
        rw [hnil] at hpp
        simp [parentPath] at hpp
      have hparent : destination.dropLast = parent := by
        unfold parentPath at hpp
        rw [if_neg hne] at hpp
        exact Option.some.inj hpp
      by_cases hpe : fs.pathExists parent = false
      · rw [if_pos hpe]
        rw [if_neg]
        · exact ⟨_, rfl⟩
        · simp [WinFS.pathExists, WinFS.createDirAll, hfile, hdir, ← hparent,
            not_isPrefixOf_dropLast destination hne]
      · rw [if_neg hpe]
        rw [if_neg (by simp [WinFS.pathExists, hfile, hdir])]
        exact ⟨_, rfl⟩

/-- Claim C8: for every call of copy_file_with_progress with an existing
source file and overwrite = false, the call fails with AlreadyExists
exactly when the destination exists at call time, and on that error the
filesystem (in particular the existing destination file) is unchanged:
the error is raised before any copying. -/
theorem C8_copy_no_overwrite (fs : WinFS) (source destination : List String)
    (hs : fs.isFile source = true) :
    ((copy_file_with_progress fs source destination false).1 =
        Except.error CopyError.AlreadyExists ↔ fs.pathExists destination = true) ∧
      (fs.pathExists destination = true →
        (copy_file_with_progress fs source destination false).2 = fs) := by
  have hex : fs.pathExists source = true := by
    simp [WinFS.pathExists, hs]
  have hwhen : fs.pathExists destination = true →
      copy_file_with_progress fs source destination false =
        (Except.error CopyError.AlreadyExists, fs) := by
    intro hd
    unfold copy_file_with_progress
    simp only [hex, hs, hd, Bool.true_eq_false, if_false, Bool.not_false, Bool.true_and,
      reduceIte]
  refine ⟨⟨?_, ?_⟩, ?_⟩
  · intro habs
    cases hd : fs.pathExists destination with
    | true => rfl
    | false =>
        obtain ⟨n, hn⟩ := copy_result_dest_absent fs source destination hs hd
        rw [hn] at habs
        exact absurd habs (by simp)
  · intro hd
    rw [hwhen hd]
  · intro hd
    rw [hwhen hd]

/-- Witness for C8 at a concrete filesystem where the destination
exists. -/
theorem C8_copy_no_overwrite_witness :
    twoFileFS.isFile ["C:", "src.txt"] = true ∧
      twoFileFS.pathExists ["C:", "dst.txt"] = true ∧
      (copy_file_with_progress twoFileFS ["C:", "src.txt"] ["C:", "dst.txt"] false).1 =
        Except.error CopyError.AlreadyExists :=
  ⟨rfl, rfl,
    ((C8_copy_no_overwrite twoFileFS ["C:", "src.txt"] ["C:", "dst.txt"] rfl).1).mpr rfl⟩

/-- The canonical three-way path comparison is "not greater" exactly
on ≤. -/
theorem pathCmp_isLE (a b : String) : (pathCmp a b).isLE = true ↔ a ≤ b := by
  unfold pathCmp compareOfLessAndEq
  by_cases h1 : a < b
  · rw [if_pos h1]
    simp [Ordering.isLE, le_of_lt h1]
  · rw [if_neg h1]
    by_cases h2 : a = b
    · rw [if_pos h2]
      simp [Ordering.isLE, le_of_eq h2]
    · rw [if_neg h2]
      simp only [Ordering.isLE]
      constructor
      · intro hf
        exact absurd hf (by simp)
      · intro hle
        exact absurd hle
          (not_le.mpr (lt_of_le_of_ne (le_of_not_lt h1) (fun h => h2 h.symm)))

/-- `compare` on naturals is "not greater" exactly on ≤. -/
theorem natCompare_isLE (a b : Nat) : (compare a b).isLE = true ↔ a ≤ b := by
  cases h : compare a b <;> simp [Ordering.isLE]
  · exact le_of_lt (Nat.compare_eq_lt.mp h)
  · exact le_of_eq (Nat.compare_eq_eq.mp h)
  · exact Nat.compare_eq_gt.mp h

/-- Characterisation of the transfer item order: a directory is below
every file, directories compare by depth and files by source path. -/
theorem transferItemLe_iff (a b : TransferItem) :
    transferItemLe a b = true ↔
      (a.is_dir = true ∧ b.is_dir = false) ∨
        (a.is_dir = true ∧ b.is_dir = true ∧ a.depth ≤ b.depth) ∨
        (a.is_dir = false ∧ b.is_dir = false ∧ a.source ≤ b.source) := by
  unfold transferItemLe cmpTransferItems
  cases ha : a.is_dir <;> cases hb : b.is_dir <;> dsimp only
  · rw [pathCmp_isLE]
    simp
  · simp [Ordering.isLE]
  · simp [Ordering.isLE]
  · rw [natCompare_isLE]
    simp

/-- The transfer item order is total. -/
theorem transferItemLe_total (a b : TransferItem) :
    (transferItemLe a b || transferItemLe b a) = true := by
  rw [Bool.or_eq_true, transferItemLe_iff, transferItemLe_iff]
  cases ha : a.is_dir <;> cases hb : b.is_dir
  · rcases le_total a.source b.source with h | h
    · exact Or.inl (Or.inr (Or.inr ⟨rfl, rfl, h⟩))
    · exact Or.inr (Or.inr (Or.inr ⟨rfl, rfl, h⟩))
  · exact Or.inr (Or.inl ⟨rfl, rfl⟩)
  · exact Or.inl (Or.inl ⟨rfl, rfl⟩)
  · rcases le_total a.depth b.depth with h | h
    · exact Or.inl (Or.inr (Or.inl ⟨rfl, rfl, h⟩))
    · exact Or.inr (Or.inr (Or.inl ⟨rfl, rfl, h⟩))

/-- The transfer item order is transitive. -/
theorem transferItemLe_trans (a b c : TransferItem) (h1 : transferItemLe a b = true)
    (h2 : transferItemLe b c = true) : transferItemLe a c = true := by
  rw [transferItemLe_iff] at h1 h2 ⊢
  rcases h1 with ⟨ha1, hb1⟩ | ⟨ha1, hb1, hd1⟩ | ⟨ha1, hb1, hs1⟩ <;>
    rcases h2 with ⟨hb2, hc2⟩ | ⟨hb2, hc2, hd2⟩ | ⟨hb2, hc2, hs2⟩
  · rw [hb1] at hb2
    exact absurd hb2 (by simp)
  · rw [hb1] at hb2
    exact absurd hb2 (by simp)
  · exact Or.inl ⟨ha1, hc2⟩
  · exact Or.inl ⟨ha1, hc2⟩
  · exact Or.inr (Or.inl ⟨ha1, hc2, le_trans hd1 hd2⟩)
  · rw [hb1] at hb2
    exact absurd hb2 (by simp)
  · rw [hb1] at hb2
    exact absurd hb2 (by simp)
  · rw [hb1] at hb2
    exact absurd hb2 (by simp)
  · exact Or.inr (Or.inr ⟨ha1, hc2, le_trans hs1 hs2⟩)

/-- Claim C1: in every transfer plan returned by TransferPlanBuilder::build,
the sorted items list has every directory before every file, directories
in non-decreasing depth order, and files in ascending (non-decreasing)
order of their source path. -/
theorem C1_plan_items_ordered (items : List TransferItem) :
    List.Pairwise
      (fun a b =>
        (b.is_dir = true → a.is_dir = true) ∧
          (a.is_dir = true → b.is_dir = true → a.depth ≤ b.depth) ∧
          (a.is_dir = false → b.is_dir = false → a.source ≤ b.source))
      (TransferPlanBuilder.sortPlanItems items) := by
  have hs := List.sorted_mergeSort transferItemLe_trans transferItemLe_total items
  unfold TransferPlanBuilder.sortPlanItems
  refine hs.imp ?_
  intro a b hab
  rw [transferItemLe_iff] at hab
  refine ⟨?_, ?_, ?_⟩
  · intro hbd
    rcases hab with ⟨h1, h2⟩ | ⟨h1, h2, h3⟩ | ⟨h1, h2, h3⟩
    · exact h1
    · exact h1
    · rw [h2] at hbd
      exact absurd hbd (by simp)
  · intro had hbd
    rcases hab with ⟨h1, h2⟩ | ⟨h1, h2, h3⟩ | ⟨h1, h2, h3⟩
    · rw [h2] at hbd
      exact absurd hbd (by simp)
    · exact h3
    · rw [h1] at had
      exact absurd had (by simp)
  · intro had hbd
    rcases hab with ⟨h1, h2⟩ | ⟨h1, h2, h3⟩ | ⟨h1, h2, h3⟩
    · rw [h1] at had
      exact absurd had (by simp)
    · rw [h1] at had
      exact absurd had (by simp)
    · exact h3
